import Mathlib

/-!
Verification of the FastAPI blog backend (backend/app): the token service
and identity resolver of auth.py, and the post repository and routers of
repositories.py / routers/posts.py, shallowly embedded in Lean.

Conventions of the embedding:
* machine time (datetime.utcnow, CURRENT_TIMESTAMP) is a Nat of epoch
  seconds, passed explicitly where the Python code reads the clock;
* the SQL store is a List of row records; SELECT / UPDATE / DELETE
  statements are translated by their documented meaning over that list,
  including the UNIQUE constraint on posts.slug declared in database.py;
* Python exceptions become Except with explicit error constructors;
* Python truthiness tests on optional strings (`if post_update.title:`)
  are modelled by truthyStr, which is false for None and for "".
-/

namespace Blog

/-- users row / pydantic UserInDB (models.py). -/
structure UserInDB where
  id : Nat
  name : String
  email : String
  password : String
  is_active : Bool
  is_admin : Bool
  created_at : Nat
  updated_at : Option Nat
deriving Repr, DecidableEq

/-- posts row / pydantic PostInDB (models.py). -/
structure PostInDB where
  id : Nat
  title : String
  tagline : Option String
  slug : String
  content : String
  img_file : Option String
  author_id : Nat
  author_name : String
  is_published : Bool
  created_at : Nat
  updated_at : Option Nat
deriving Repr, DecidableEq

/-- pydantic PostUpdate (models.py): every field optional. -/
structure PostUpdate where
  title : Option String
  tagline : Option String
  slug : Option String
  content : Option String
  img_file : Option String
  is_published : Option Bool
deriving Repr, DecidableEq

/-- The settings fields consumed by the token service (config.py). -/
structure Settings where
  secret_key : String
  access_token_expire_minutes : Nat
deriving Repr, DecidableEq

/-- Python truthiness of an optional string: None and "" are falsy. -/
def truthyStr : Option String → Bool
  | none => false
  | some s => s ≠ ""

/-! ## Token service (auth.py: create_access_token, verify_token) -/

/-- The JWT claims payload assembled by create_access_token. -/
structure JwtPayload where
  sub : Option String
  user_id : Option Nat
  name : Option String
  email : Option String
  is_admin : Option Bool
  is_active : Option Bool
  exp : Nat
  iat : Nat
  type : String
deriving Repr, DecidableEq

/-- A JWT as handed to jose.jwt.decode: either a payload signed with some
key, or a string that is not a well-formed JWT at all. -/
inductive Jwt where
  | signed (payload : JwtPayload) (key : String)
  | malformed (raw : String)
deriving Repr, DecidableEq

/-- jose's failure modes relevant here: ExpiredSignatureError for a token
past its exp claim, and the other JWTError cases (bad signature or
malformed structure) collapsed into invalid. -/
inductive JWTError where
  | expired
  | invalid
deriving Repr, DecidableEq

/-- jose.jwt.decode: reject a malformed token or a wrong signature as
invalid; reject a token whose exp lies strictly in the past as expired;
otherwise return the claims payload. -/
def jwtDecode (token : Jwt) (key : String) (now : Nat) : Except JWTError JwtPayload :=
  match token with
  | .malformed _ => .error .invalid
  | .signed payload sigKey =>
    if sigKey = key then
      if payload.exp < now then .error .expired else .ok payload
    else .error .invalid

/-- The user_data dict passed to create_access_token; id, name and email
are always set by the callers, is_admin and is_active are read with
dict.get and so may be absent. -/
structure UserData where
  id : Nat
  name : String
  email : String
  is_admin : Option Bool
  is_active : Option Bool
deriving Repr, DecidableEq

/-- auth.create_access_token: expiry is now plus the given delta (seconds),
defaulting to the configured minutes; the claims embed the identity
snapshot with sub = email and type = "access", signed with the secret. -/
def create_access_token (user_data : UserData) (expires_delta : Option Nat)
    (settings : Settings) (now : Nat) : Jwt :=
  let expire : Nat :=
    match expires_delta with
    | some d => now + d
    | none => now + settings.access_token_expire_minutes * 60
  .signed
    { sub := some user_data.email
      user_id := some user_data.id
      name := some user_data.name
      email := some user_data.email
      is_admin := user_data.is_admin
      is_active := user_data.is_active
      exp := expire
      iat := now
      type := "access" }
    settings.secret_key

/-- pydantic TokenData as declared in models.py: the model declares ONLY
the email field.  verify_token constructs it with user_id, name, is_admin
and is_active keyword arguments as well, but pydantic's default
extra-ignore configuration silently drops every keyword that is not a
declared field, so the constructed object carries nothing but email. -/
structure TokenData where
  email : Option String
deriving Repr, DecidableEq

/-- The single failure signal of verify_token's caller-supplied
credentials_exception (HTTP 401 "Could not validate credentials"). -/
inductive VerifyError where
  | credentialsException
deriving Repr, DecidableEq

/-- auth.verify_token: decode the token (any JWTError becomes the
credentials exception), reject a missing sub claim, and build TokenData
from the payload.  Per the TokenData model above, only email survives. -/
def verify_token (token : Jwt) (key : String) (now : Nat) :
    Except VerifyError TokenData :=
  match jwtDecode token key now with
  | .error _ => .error .credentialsException
  | .ok payload =>
    match payload.sub with
    | none => .error .credentialsException
    | some email => .ok { email := some email }

/-! ## Identity resolver (auth.py: get_current_user) and login -/

/-- The failure modes of get_current_user: the 401 credentials exception,
and the uncaught Python AttributeError raised when an attribute that the
TokenData model does not declare is read (surfaced as an HTTP 500). -/
inductive AuthError where
  | credentialsException
  | attributeError
deriving Repr, DecidableEq

/-- auth.get_current_user.  After a missing-token check and verify_token,
the source evaluates `token_data.user_id` to decide between the snapshot
fast path and the database fallback.  TokenData (models.py) declares no
user_id attribute and pydantic dropped the extra constructor keywords, so
this attribute access raises AttributeError on every request that reaches
it — before either branch can run. -/
def get_current_user (token : Option Jwt) (users : List UserInDB)
    (key : String) (now : Nat) : Except AuthError UserInDB :=
  match token with
  | none => .error .credentialsException
  | some t =>
    match verify_token t key now with
    | .error _ => .error .credentialsException
    | .ok _token_data => .error .attributeError

/-- The snapshot fast-path branch body of get_current_user (auth.py lines
111-119) as written: the UserInDB it would construct from the token
fields, with password set to "" and created_at set to the resolution-time
clock reading (datetime.utcnow()), not the stored record's values. -/
def fastPathUser (td_user_id : Nat) (td_name td_email : String)
    (td_is_active td_is_admin : Bool) (now : Nat) : UserInDB :=
  { id := td_user_id
    name := td_name
    email := td_email
    password := ""
    is_active := td_is_active
    is_admin := td_is_admin
    created_at := now
    updated_at := none }

/-- Models the password-hashing collaborator (passlib bcrypt CryptContext):
an injective tagging of the password, with verification defined as hashing
the candidate and comparing.  Only the roundtrip law
verify_password p (get_password_hash p) = true is relied on. -/
def get_password_hash (password : String) : String :=
  String.append "$2b$12$" password

/-- auth.verify_password via the hashing model above. -/
def verify_password (plain hashed : String) : Bool :=
  hashed = get_password_hash plain

/-- UserRepository.get_user_by_email: SELECT * FROM users WHERE email = v
(first matching row). -/
def get_user_by_email (users : List UserInDB) (email : String) : Option UserInDB :=
  users.find? (fun u => u.email = email)

/-- auth.authenticate_user: look the user up by email, then check the
password against the stored hash; False (here none) on either failure. -/
def authenticate_user (users : List UserInDB) (email password : String) :
    Option UserInDB :=
  match get_user_by_email users email with
  | none => none
  | some user => if verify_password password user.password then some user else none

/-- routers/auth.login_user: authenticate, then issue an access token for
the authenticated identity with the configured TTL (minutes, passed as a
timedelta; seconds here); 401 when authentication fails. -/
def login_user (users : List UserInDB) (email password : String)
    (settings : Settings) (now : Nat) : Except VerifyError Jwt :=
  match authenticate_user users email password with
  | none => .error .credentialsException
  | some u =>
    .ok (create_access_token
      { id := u.id, name := u.name, email := u.email
        is_admin := some u.is_admin, is_active := some u.is_active }
      (some (settings.access_token_expire_minutes * 60)) settings now)

/-! ## Post repository (repositories.py: PostRepository) -/

/-- The store-level error surfaced by an UPDATE that violates the UNIQUE
constraint on posts.slug (database.py declares slug VARCHAR(100) UNIQUE). -/
inductive DBError where
  | uniqueViolation
deriving Repr, DecidableEq

/-- PostRepository.get_post_by_id: SELECT * FROM posts WHERE id = v. -/
def get_post_by_id (posts : List PostInDB) (post_id : Nat) : Option PostInDB :=
  posts.find? (fun p => p.id = post_id)

/-- PostRepository.get_post_by_slug: SELECT * FROM posts WHERE slug = v
AND is_published = true. -/
def get_post_by_slug (posts : List PostInDB) (slug : String) : Option PostInDB :=
  posts.find? (fun p => p.slug = slug ∧ p.is_published = true)

/-- PostRepository.slug_exists: COUNT rows with the slug, optionally
excluding one id; true when the count is positive. -/
def slug_exists (posts : List PostInDB) (slug : String)
    (exclude_id : Option Nat) : Bool :=
  match exclude_id with
  | none => posts.any (fun p => p.slug = slug)
  | some i => posts.any (fun p => p.slug = slug ∧ p.id ≠ i)

/-- ORDER BY created_at DESC of the posts queries: newest first. -/
def newerFirst (a b : PostInDB) : Bool :=
  b.created_at ≤ a.created_at

/-- The rows of a posts query ordered by created_at descending. -/
def sortByCreatedDesc (posts : List PostInDB) : List PostInDB :=
  posts.mergeSort newerFirst

/-- PostRepository.get_posts_paginated: count the (optionally
published-filtered) rows, then return the page at
offset (page-1)*per_page of the created_at-descending order, LIMIT
per_page, together with the total count. -/
def get_posts_paginated (posts : List PostInDB) (page per_page : Nat)
    (published_only : Bool) : List PostInDB × Nat :=
  let offset := (page - 1) * per_page
  let rows := if published_only then posts.filter (fun p => p.is_published) else posts
  (((sortByCreatedDesc rows).drop offset).take per_page, rows.length)

/-- The field-by-field effect of PostRepository.update_post's dynamically
built SET clause on one row: title, slug and content are assigned only when
truthy (Python `if post_update.title:` — skipped for None and for "");
tagline, img_file and is_published only when not None; updated_at is set
to CURRENT_TIMESTAMP. -/
def applyPostUpdate (p : PostInDB) (u : PostUpdate) (now : Nat) : PostInDB :=
  { p with
    title := if truthyStr u.title then u.title.getD p.title else p.title
    tagline := match u.tagline with | some t => some t | none => p.tagline
    slug := if truthyStr u.slug then u.slug.getD p.slug else p.slug
    content := if truthyStr u.content then u.content.getD p.content else p.content
    img_file := match u.img_file with | some f => some f | none => p.img_file
    is_published := u.is_published.getD p.is_published
    updated_at := some now }

/-- Whether update_post's update_fields list is nonempty, mirroring the
same truthiness tests the source uses to build the SET clause. -/
def hasUpdateFields (u : PostUpdate) : Bool :=
  truthyStr u.title || u.tagline.isSome || truthyStr u.slug ||
    truthyStr u.content || u.img_file.isSome || u.is_published.isSome

/-- PostRepository.update_post: with no fields present, just re-read the
row; otherwise run UPDATE ... WHERE id = :id RETURNING.  The UPDATE
returns no row when the id is absent; it raises the store's uniqueness
violation when the updated row's slug collides with another row's slug
(the slug UNIQUE constraint); otherwise it rewrites the row in place.
Returns the RETURNING row and the resulting store. -/
def update_post (posts : List PostInDB) (post_id : Nat) (u : PostUpdate)
    (now : Nat) : Except DBError (Option PostInDB × List PostInDB) :=
  if hasUpdateFields u then
    match get_post_by_id posts post_id with
    | none => .ok (none, posts)
    | some p =>
      let p' := applyPostUpdate p u now
      if posts.any (fun q => q.id ≠ p.id ∧ q.slug = p'.slug) then
        .error .uniqueViolation
      else
        .ok (some p', posts.map (fun q => if q.id = p.id then p' else q))
  else
    .ok (get_post_by_id posts post_id, posts)

/-- The Python TypeError raised by comparing None with an int. -/
inductive PyError where
  | typeError
deriving Repr, DecidableEq

/-- db_manager.execute_delete for DELETE FROM posts WHERE id = :id via the
databases postgres backend: Database.execute returns fetchval — the first
value of the first returned row — which is None for a DELETE without a
RETURNING clause.  The matching rows are removed regardless, each execute
being its own autocommitted statement. -/
def execute_delete (posts : List PostInDB) (post_id : Nat) :
    Option Nat × List PostInDB :=
  (none, posts.filter (fun p => ¬(p.id = post_id)))

/-- PostRepository.delete_post: runs the DELETE, then returns result > 0.
Against an int result the comparison would yield the boolean signal, but
execute_delete always hands back None, so the comparison raises TypeError
on every call and the function never returns its signal. -/
def delete_post (posts : List PostInDB) (post_id : Nat) :
    Except PyError Bool × List PostInDB :=
  let r := execute_delete posts post_id
  match r.1 with
  | none => (.error .typeError, r.2)
  | some n => (.ok (decide (n > 0)), r.2)

/-! ## Post routers (routers/posts.py), given an already-resolved actor.

Each handler first resolves the current user; the handlers below take that
actor as a parameter and model the rest of the handler body.  They return
the handler outcome together with the resulting store (the store is
untouched on every error path before the write). -/

/-- Router-level outcomes: FastAPI 404, 403, the deliberate duplicate-slug
rejection (HTTP 400 "Slug already exists", raised only by the create
handler's slug_exists pre-check), the handler's own 500 ("Failed to
update/delete post"), and an exception escaping the handler — here the
store's uniqueness violation or the delete path's TypeError, surfaced as
a raw 500, distinct from the deliberate conflictSlug response. -/
inductive ApiError where
  | notFound
  | forbidden
  | conflictSlug
  | internalError
  | storeError (e : DBError)
  | pyError (e : PyError)
deriving Repr, DecidableEq

/-- routers/posts.update_post: 404 when the id is absent; 403 when the
actor is neither the author nor an admin; then PostRepository.update_post,
whose None result is a 500 and whose store exception propagates. -/
def router_update_post (posts : List PostInDB) (actor : UserInDB)
    (post_id : Nat) (u : PostUpdate) (now : Nat) :
    Except ApiError PostInDB × List PostInDB :=
  match get_post_by_id posts post_id with
  | none => (.error .notFound, posts)
  | some db_post =>
    if db_post.author_id ≠ actor.id ∧ actor.is_admin = false then
      (.error .forbidden, posts)
    else
      match update_post posts post_id u now with
      | .error e => (.error (.storeError e), posts)
      | .ok (none, posts') => (.error .internalError, posts')
      | .ok (some p', posts') => (.ok p', posts')

/-- routers/posts.delete_post: 404 when the id is absent; 403 when the
actor is neither the author nor an admin; then PostRepository.delete_post,
whose escaping TypeError propagates as a raw 500 (a False signal would be
surfaced as the handler's own 500). -/
def router_delete_post (posts : List PostInDB) (actor : UserInDB)
    (post_id : Nat) : Except ApiError Unit × List PostInDB :=
  match get_post_by_id posts post_id with
  | none => (.error .notFound, posts)
  | some db_post =>
    if db_post.author_id ≠ actor.id ∧ actor.is_admin = false then
      (.error .forbidden, posts)
    else
      match delete_post posts post_id with
      | (.error e, posts') => (.error (.pyError e), posts')
      | (.ok true, posts') => (.ok (), posts')
      | (.ok false, posts') => (.error .internalError, posts')

/-- The PostUpdate(is_published=new_status) payload built by
toggle_post_visibility: every other field left None. -/
def onlyPublish (v : Bool) : PostUpdate :=
  { title := none, tagline := none, slug := none, content := none
    img_file := none, is_published := some v }

/-- routers/posts.toggle_post_visibility: 404 when the id is absent; 403
when the actor is neither the author nor an admin; otherwise update the
row to the negated is_published and answer with the new status. -/
def toggle_post_visibility (posts : List PostInDB) (actor : UserInDB)
    (post_id : Nat) (now : Nat) : Except ApiError Bool × List PostInDB :=
  match get_post_by_id posts post_id with
  | none => (.error .notFound, posts)
  | some db_post =>
    if db_post.author_id ≠ actor.id ∧ actor.is_admin = false then
      (.error .forbidden, posts)
    else
      let new_status := !db_post.is_published
      match update_post posts post_id (onlyPublish new_status) now with
      | .error e => (.error (.storeError e), posts)
      | .ok (none, posts') => (.error .internalError, posts')
      | .ok (some _, posts') => (.ok new_status, posts')

/-- The fields of PostListResponse the pagination claims speak about. -/
structure PostListResponse where
  posts : List PostInDB
  total : Nat
  page : Nat
  per_page : Nat
  total_pages : Nat
deriving Repr, DecidableEq

/-- routers/posts.get_posts: the public listing, published only, with
total_pages = ceil(total / per_page). -/
def get_posts (posts : List PostInDB) (page per_page : Nat) : PostListResponse :=
  let r := get_posts_paginated posts page per_page true
  { posts := r.1, total := r.2, page := page, per_page := per_page
    total_pages := (r.2 + per_page - 1) / per_page }

/-! ## Store invariants (database.py schema): ids are a SERIAL PRIMARY
KEY and slugs are UNIQUE. -/

/-- No two rows share an id. -/
def idsUnique (posts : List PostInDB) : Prop :=
  (posts.map (fun p => p.id)).Nodup

/-- No two rows share a slug (the posts.slug UNIQUE constraint). -/
def slugsUnique (posts : List PostInDB) : Prop :=
  (posts.map (fun p => p.slug)).Nodup

/-! ## Concrete sample stores used by witnesses and counterexamples -/

/-- A user record with a hash produced by the hashing model, for the
login-claims witness. -/
def cBob : UserInDB :=
  { id := 7, name := "Bob", email := "bob@x", password := get_password_hash "pw"
    is_active := true, is_admin := false, created_at := 100, updated_at := none }

/-- A concrete claims payload already expired at time 200. -/
def cExpiredPayload : JwtPayload :=
  { sub := some "bob@x", user_id := some 7, name := some "Bob"
    email := some "bob@x", is_admin := some false, is_active := some true
    exp := 150, iat := 90, type := "access" }

/-- A published and an unpublished post by author 1, with distinct slugs,
for the slug-lookup witness. -/
def cDraft : PostInDB :=
  { id := 2, title := "draft", tagline := none, slug := "d", content := "c"
    img_file := none, author_id := 1, author_name := "Alice"
    is_published := false, created_at := 10, updated_at := none }

/-- A published post used by several witnesses. -/
def cPub : PostInDB :=
  { id := 1, title := "pub", tagline := none, slug := "p", content := "c"
    img_file := none, author_id := 1, author_name := "Alice"
    is_published := true, created_at := 20, updated_at := none }

/-- An active non-admin user distinct from the posts' author, for the
authorization witness. -/
def cMallory : UserInDB :=
  { id := 99, name := "Mallory", email := "m@x", password := "h"
    is_active := true, is_admin := false, created_at := 5, updated_at := none }

/-- The i-th sample post for the pagination witness: distinct ids and
creation times, all published. -/
def mkPost (i : Nat) : PostInDB :=
  { id := i + 1, title := "t", tagline := none, slug := "s", content := "c"
    img_file := none, author_id := 1, author_name := "Alice"
    is_published := true, created_at := i, updated_at := none }

/-- A concrete store of 25 published posts. -/
def cPosts25 : List PostInDB := (List.range 25).map mkPost

/-- The row an is_published-only UPDATE produces: abbreviation used to
state the update_post lemmas. -/
def setPublish (p : PostInDB) (v : Bool) (now : Nat) : PostInDB :=
  { p with is_published := v, updated_at := some now }

/-- The store after the UPDATE rewrote the rows with the given id. -/
def replaceRow (posts : List PostInDB) (pid : Nat) (P : PostInDB) :
    List PostInDB :=
  posts.map (fun q => if q.id = pid then P else q)

/-- The author (id 1) of the concrete posts, an active non-admin. -/
def cAuthorAlice : UserInDB :=
  { id := 1, name := "Alice", email := "alice@x", password := "h"
    is_active := true, is_admin := false, created_at := 5, updated_at := none }

/-- The update payload changing only the slug to "d" (the slug already
held by the post with id 2). -/
def cSlugUpd : PostUpdate :=
  { title := none, tagline := none, slug := some "d", content := none
    img_file := none, is_published := none }

/-- The stored identity record backing the concrete snapshot token; its
created_at (registration time 500) differs from any later resolution
time. -/
def cAliceStored : UserInDB :=
  { id := 1, name := "Alice", email := "alice@x", password := "$2b$12$pw"
    is_active := true, is_admin := false, created_at := 500
    updated_at := none }

/-- A complete-snapshot claims payload for the stored record: user_id,
name and email all present, matching the stored fields. -/
def cSnapshotPayload : JwtPayload :=
  { sub := some "alice@x", user_id := some 1, name := some "Alice"
    email := some "alice@x", is_admin := some false, is_active := some true
    exp := 2000, iat := 900, type := "access" }

/-- The concrete complete-snapshot token, correctly signed. -/
def cSnapshotTok : Jwt := .signed cSnapshotPayload "k1"

/-- C2: for every identity with valid credentials, the token issued by
login, decoded by verify's jwt.decode, yields claims whose user_id, name,
email, is_admin and is_active equal the originating identity's fields
exactly, with sub equal to the email and type equal to "access". -/
theorem login_token_claims_match_identity (users : List UserInDB)
    (email password : String) (settings : Settings) (now : Nat) (u : UserInDB)
    (hauth : authenticate_user users email password = some u) :
    ∃ tok : Jwt, ∃ p : JwtPayload,
      login_user users email password settings now = .ok tok ∧
      jwtDecode tok settings.secret_key now = .ok p ∧
      p.user_id = some u.id ∧ p.name = some u.name ∧ p.email = some u.email ∧
      p.is_admin = some u.is_admin ∧ p.is_active = some u.is_active ∧
      p.sub = some u.email ∧ p.type = "access" := by
  unfold login_user
  rw [hauth]
  refine ⟨create_access_token
      { id := u.id, name := u.name, email := u.email,
        is_admin := some u.is_admin, is_active := some u.is_active }
      (some (settings.access_token_expire_minutes * 60)) settings now,
    { sub := some u.email, user_id := some u.id, name := some u.name,
      email := some u.email, is_admin := some u.is_admin,
      is_active := some u.is_active,
      exp := now + settings.access_token_expire_minutes * 60, iat := now,
      type := "access" },
    rfl, ?_, rfl, rfl, rfl, rfl, rfl, rfl, rfl⟩
  simp only [create_access_token, jwtDecode]
  rw [if_pos trivial, if_neg (by omega)]

/-- Witness for the login-claims theorem at a concrete one-user store. -/
theorem login_token_claims_match_identity_witness :
    ∃ tok : Jwt, ∃ p : JwtPayload,
      login_user [cBob] "bob@x" "pw" ⟨"k1", 30⟩ 500 = .ok tok ∧
      jwtDecode tok "k1" 500 = .ok p ∧
      p.user_id = some cBob.id ∧ p.name = some cBob.name ∧
      p.email = some cBob.email ∧ p.is_admin = some cBob.is_admin ∧
      p.is_active = some cBob.is_active ∧ p.sub = some cBob.email ∧
      p.type = "access" :=
  login_token_claims_match_identity [cBob] "bob@x" "pw" ⟨"k1", 30⟩ 500 cBob
    (by simp [authenticate_user, get_user_by_email, verify_password, cBob])

/-- C3: a token whose exp lies in the past fails jwt decoding with the
expired error and is never treated as valid; a token with a bad signature
or malformed structure fails with the invalid error; in each case
verify_token surfaces the single credentials exception. -/
theorem token_verification_failure_modes (p : JwtPayload)
    (key otherKey raw : String) (now : Nat)
    (hexp : p.exp < now) (hkey : otherKey ≠ key) :
    jwtDecode (.signed p key) key now = .error .expired ∧
    (∀ q, jwtDecode (.signed p key) key now ≠ .ok q) ∧
    verify_token (.signed p key) key now = .error .credentialsException ∧
    jwtDecode (.signed p otherKey) key now = .error .invalid ∧
    jwtDecode (.malformed raw) key now = .error .invalid ∧
    verify_token (.signed p otherKey) key now = .error .credentialsException ∧
    verify_token (.malformed raw) key now = .error .credentialsException := by
  have hdec : jwtDecode (.signed p key) key now = .error .expired := by
    simp [jwtDecode, hexp]
  have hbad : jwtDecode (.signed p otherKey) key now = .error .invalid := by
    simp [jwtDecode, hkey]
  refine ⟨hdec, ?_, ?_, hbad, rfl, ?_, rfl⟩
  · intro q h
    rw [hdec] at h
    exact Except.noConfusion h
  · unfold verify_token
    rw [hdec]
  · unfold verify_token
    rw [hbad]

/-- Witness for the verification failure modes at concrete inputs. -/
theorem token_verification_failure_modes_witness :
    cExpiredPayload.exp < 200 ∧
    (jwtDecode (.signed cExpiredPayload "k1") "k1" 200 = .error .expired ∧
     (∀ q, jwtDecode (.signed cExpiredPayload "k1") "k1" 200 ≠ .ok q) ∧
     verify_token (.signed cExpiredPayload "k1") "k1" 200 =
       .error .credentialsException ∧
     jwtDecode (.signed cExpiredPayload "k2") "k1" 200 = .error .invalid ∧
     jwtDecode (.malformed "junk") "k1" 200 = .error .invalid ∧
     verify_token (.signed cExpiredPayload "k2") "k1" 200 =
       .error .credentialsException ∧
     verify_token (.malformed "junk") "k1" 200 = .error .credentialsException) :=
  ⟨by decide,
   token_verification_failure_modes cExpiredPayload "k1" "k2" "junk" 200
     (by decide) (by decide)⟩

/-- C6: slug lookup returns only published posts, and under the store's
slug-uniqueness invariant an unpublished post is invisible by slug
lookup. -/
theorem slug_lookup_published_only (posts : List PostInDB) (slug : String) :
    (∀ q, get_post_by_slug posts slug = some q → q.is_published = true) ∧
    (slugsUnique posts → ∀ p ∈ posts, p.is_published = false →
      get_post_by_slug posts p.slug = none) := by
  constructor
  · intro q hq
    have := List.find?_some hq
    simp only [decide_eq_true_eq] at this
    exact this.2
  · intro hnd p hp hpub
    cases hfind : get_post_by_slug posts p.slug with
    | none => rfl
    | some q =>
      have hpred := List.find?_some hfind
      have hmem := List.mem_of_find?_eq_some hfind
      simp only [decide_eq_true_eq] at hpred
      have : q = p := List.inj_on_of_nodup_map hnd hmem hp hpred.1
      rw [this] at hpred
      rw [hpred.2] at hpub
      exact absurd hpub (by simp)

/-- Witness: in the concrete two-post store the draft is invisible by its
slug while every slug-lookup hit is published. -/
theorem slug_lookup_published_only_witness :
    (∀ q, get_post_by_slug [cPub, cDraft] "d" = some q →
      q.is_published = true) ∧
    (get_post_by_slug [cPub, cDraft] cDraft.slug = none) :=
  ⟨(slug_lookup_published_only [cPub, cDraft] "d").1,
   (slug_lookup_published_only [cPub, cDraft] "d").2
     (by unfold slugsUnique; decide) cDraft (by decide) (by decide)⟩

/-- C8 (code bug): the DELETE removes the matching row, but delete_post
never returns its boolean signal — on a nonexistent id and on an existing
id alike it raises TypeError, because the store driver hands back None
for a DELETE without RETURNING and the source compares that with 0. -/
theorem delete_post_type_error :
    delete_post [cPub, cDraft] 9 = (.error .typeError, [cPub, cDraft]) ∧
    delete_post [cPub, cDraft] 1 = (.error .typeError, [cDraft]) ∧
    ∀ b : Bool, (delete_post [cPub, cDraft] 9).1 ≠ .ok b := by
  refine ⟨rfl, rfl, ?_⟩
  intro b h
  rw [show (delete_post [cPub, cDraft] 9).1 =
      Except.error PyError.typeError from rfl] at h
  exact Except.noConfusion h

/-- C9: an authenticated actor who is neither the author of an existing
post nor an admin receives Forbidden from each of update, delete and
toggle-visibility, and the store is left unchanged, so the mutation
proceeds only for the author or an admin. -/
theorem mutation_requires_author_or_admin (posts : List PostInDB)
    (actor : UserInDB) (post_id : Nat) (u : PostUpdate) (now : Nat)
    (p : PostInDB) (hfind : get_post_by_id posts post_id = some p)
    (hnotauthor : p.author_id ≠ actor.id) (hnotadmin : actor.is_admin = false) :
    router_update_post posts actor post_id u now = (.error .forbidden, posts) ∧
    router_delete_post posts actor post_id = (.error .forbidden, posts) ∧
    toggle_post_visibility posts actor post_id now = (.error .forbidden, posts) := by
  unfold router_update_post router_delete_post toggle_post_visibility
  rw [hfind]
  simp [hnotauthor, hnotadmin]

/-- Witness: the concrete non-author non-admin actor gets Forbidden on all
three mutations of the existing post with id 1. -/
theorem mutation_requires_author_or_admin_witness :
    router_update_post [cPub, cDraft] cMallory 1 (onlyPublish false) 50 =
      (.error .forbidden, [cPub, cDraft]) ∧
    router_delete_post [cPub, cDraft] cMallory 1 =
      (.error .forbidden, [cPub, cDraft]) ∧
    toggle_post_visibility [cPub, cDraft] cMallory 1 50 =
      (.error .forbidden, [cPub, cDraft]) :=
  mutation_requires_author_or_admin [cPub, cDraft] cMallory 1
    (onlyPublish false) 50 cPub (by decide) (by decide) (by decide)

/-- The created_at-descending order produced by the posts queries is
pairwise descending. -/
theorem sortByCreatedDesc_pairwise (l : List PostInDB) :
    (sortByCreatedDesc l).Pairwise (fun a b => b.created_at ≤ a.created_at) := by
  have h := @List.sorted_mergeSort PostInDB newerFirst
    (fun a b c hab hbc => by
      simp only [newerFirst, decide_eq_true_eq] at hab hbc ⊢
      omega)
    (fun a b => by
      simp only [newerFirst, Bool.or_eq_true, decide_eq_true_eq]
      omega) l
  exact h.imp (fun {a b} hab => by
    simpa only [newerFirst, decide_eq_true_eq] using hab)

/-- C5: with 25 published posts, page 1 at 10 per page reports total 25,
3 total pages and exactly 10 items in descending creation order; in
general the page is the drop/take window of the descending order. -/
theorem list_pagination (posts : List PostInDB)
    (hpub : ∀ p ∈ posts, p.is_published = true) (hlen : posts.length = 25) :
    (get_posts posts 1 10).total = 25 ∧
    (get_posts posts 1 10).total_pages = 3 ∧
    (get_posts posts 1 10).posts.length = 10 ∧
    (get_posts posts 1 10).posts.Pairwise
      (fun a b => b.created_at ≤ a.created_at) ∧
    ∀ pg pp, (get_posts posts pg pp).posts =
      ((sortByCreatedDesc (posts.filter (fun p => p.is_published))).drop
        ((pg - 1) * pp)).take pp := by
  have hfe : posts.filter (fun p => p.is_published) = posts :=
    List.filter_eq_self.mpr (fun a ha => by rw [hpub a ha])
  refine ⟨?_, ?_, ?_, ?_, ?_⟩
  · simp [get_posts, get_posts_paginated, hfe, hlen]
  · simp [get_posts, get_posts_paginated, hfe, hlen]
  · simp [get_posts, get_posts_paginated, sortByCreatedDesc, hfe, hlen]
  · have hs := sortByCreatedDesc_pairwise (posts.filter (fun p => p.is_published))
    have hsub : List.Sublist (get_posts posts 1 10).posts
        (sortByCreatedDesc (posts.filter (fun p => p.is_published))) := by
      simp only [get_posts, get_posts_paginated]
      exact (List.take_sublist _ _).trans (List.drop_sublist _ _)
    exact hs.sublist hsub
  · intro pg pp
    simp [get_posts, get_posts_paginated]

/-- Witness: the pagination facts at the concrete 25-post store. -/
theorem list_pagination_witness :
    (get_posts cPosts25 1 10).total = 25 ∧
    (get_posts cPosts25 1 10).total_pages = 3 ∧
    (get_posts cPosts25 1 10).posts.length = 10 ∧
    (get_posts cPosts25 1 10).posts.Pairwise
      (fun a b => b.created_at ≤ a.created_at) ∧
    ∀ pg pp, (get_posts cPosts25 pg pp).posts =
      ((sortByCreatedDesc (cPosts25.filter (fun p => p.is_published))).drop
        ((pg - 1) * pp)).take pp :=
  list_pagination cPosts25 (by decide) (by decide)

@[simp] theorem setPublish_id (p : PostInDB) (v : Bool) (now : Nat) :
    (setPublish p v now).id = p.id := rfl

@[simp] theorem setPublish_slug (p : PostInDB) (v : Bool) (now : Nat) :
    (setPublish p v now).slug = p.slug := rfl

@[simp] theorem setPublish_author_id (p : PostInDB) (v : Bool) (now : Nat) :
    (setPublish p v now).author_id = p.author_id := rfl

@[simp] theorem setPublish_is_published (p : PostInDB) (v : Bool) (now : Nat) :
    (setPublish p v now).is_published = v := rfl

/-- With only is_published present, the SET clause changes exactly
is_published and updated_at. -/
theorem applyPostUpdate_onlyPublish (p : PostInDB) (v : Bool) (now : Nat) :
    applyPostUpdate p (onlyPublish v) now = setPublish p v now := by
  simp [applyPostUpdate, onlyPublish, truthyStr, setPublish]

/-- PostRepository.update_post on an is_published-only payload: under the
schema invariants it succeeds, rewrites just that row, and preserves the
row lookup and both invariants. -/
theorem update_post_onlyPublish (posts : List PostInDB) (post_id : Nat)
    (v : Bool) (now : Nat) (p : PostInDB)
    (hids : idsUnique posts) (hslugs : slugsUnique posts)
    (hfind : get_post_by_id posts post_id = some p) :
    update_post posts post_id (onlyPublish v) now =
      .ok (some (setPublish p v now),
        replaceRow posts p.id (setPublish p v now)) ∧
    get_post_by_id (replaceRow posts p.id (setPublish p v now)) post_id =
      some (setPublish p v now) ∧
    idsUnique (replaceRow posts p.id (setPublish p v now)) ∧
    slugsUnique (replaceRow posts p.id (setPublish p v now)) := by
  have hmem : p ∈ posts := List.mem_of_find?_eq_some hfind
  have hid_f : ∀ q : PostInDB,
      (if q.id = p.id then setPublish p v now else q).id = q.id := by
    intro q
    by_cases h : q.id = p.id
    · simp [h]
    · simp [h]
  have hslug_f : ∀ q ∈ posts,
      (if q.id = p.id then setPublish p v now else q).slug = q.slug := by
    intro q hq
    by_cases h : q.id = p.id
    · have : q = p := List.inj_on_of_nodup_map hids hq hmem h
      simp [h, this]
    · simp [h]
  have hnocol :
      (posts.any fun q => decide (q.id ≠ p.id ∧ q.slug = p.slug)) = false := by
    rw [List.any_eq_false]
    intro q hq
    simp only [decide_eq_true_eq, not_and]
    intro hqid hqslug
    have hq_eq : q = p := List.inj_on_of_nodup_map hslugs hq hmem hqslug
    exact hqid (by rw [hq_eq])
  have hfields : hasUpdateFields (onlyPublish v) = true := by
    simp [hasUpdateFields, onlyPublish]
  have hupd : update_post posts post_id (onlyPublish v) now =
      .ok (some (setPublish p v now),
        replaceRow posts p.id (setPublish p v now)) := by
    rw [update_post, if_pos hfields, hfind]
    simp only [applyPostUpdate_onlyPublish, setPublish_slug, hnocol,
      Bool.false_eq_true, if_false]
    rfl
  have hfind' :
      get_post_by_id (replaceRow posts p.id (setPublish p v now)) post_id =
        some (setPublish p v now) := by
    unfold get_post_by_id at hfind ⊢
    unfold replaceRow
    rw [List.find?_map]
    have hpred : ((fun q : PostInDB => decide (q.id = post_id)) ∘
        (fun q => if q.id = p.id then setPublish p v now else q)) =
        (fun q : PostInDB => decide (q.id = post_id)) := by
      funext q
      simp only [Function.comp_apply, hid_f q]
    rw [hpred, hfind, Option.map_some']
    simp
  refine ⟨hupd, hfind', ?_, ?_⟩
  · unfold idsUnique replaceRow
    have : (posts.map (fun q => if q.id = p.id then setPublish p v now
        else q)).map (fun q => q.id) = posts.map (fun q => q.id) := by
      rw [List.map_map]
      exact List.map_congr_left (fun q _ => hid_f q)
    rw [this]
    exact hids
  · unfold slugsUnique replaceRow
    have : (posts.map (fun q => if q.id = p.id then setPublish p v now
        else q)).map (fun q => q.slug) = posts.map (fun q => q.slug) := by
      rw [List.map_map]
      exact List.map_congr_left (fun q hq => hslug_f q hq)
    rw [this]
    exact hslugs

/-- C7: for an existing post and an authorized actor, toggling visibility
once flips is_published and toggling twice returns it to its original
value. -/
theorem toggle_visibility_involution (posts : List PostInDB)
    (actor : UserInDB) (post_id now now2 : Nat) (p : PostInDB)
    (hids : idsUnique posts) (hslugs : slugsUnique posts)
    (hfind : get_post_by_id posts post_id = some p)
    (hauth : p.author_id = actor.id ∨ actor.is_admin = true) :
    ∃ posts1 posts2,
      toggle_post_visibility posts actor post_id now =
        (.ok (!p.is_published), posts1) ∧
      (get_post_by_id posts1 post_id).map (fun q => q.is_published) =
        some (!p.is_published) ∧
      toggle_post_visibility posts1 actor post_id now2 =
        (.ok p.is_published, posts2) ∧
      (get_post_by_id posts2 post_id).map (fun q => q.is_published) =
        some p.is_published := by
  have hna : ¬(p.author_id ≠ actor.id ∧ actor.is_admin = false) := by
    rcases hauth with h | h
    · exact fun hc => hc.1 h
    · exact fun hc => by rw [h] at hc; exact absurd hc.2 (by decide)
  obtain ⟨hupd1, hfind1, hids1, hslugs1⟩ :=
    update_post_onlyPublish posts post_id (!p.is_published) now p
      hids hslugs hfind
  obtain ⟨hupd2, hfind2, _, _⟩ :=
    update_post_onlyPublish
      (replaceRow posts p.id (setPublish p (!p.is_published) now)) post_id
      p.is_published now2
      (setPublish p (!p.is_published) now) hids1 hslugs1 hfind1
  refine ⟨replaceRow posts p.id (setPublish p (!p.is_published) now),
    replaceRow (replaceRow posts p.id (setPublish p (!p.is_published) now))
      (setPublish p (!p.is_published) now).id
      (setPublish (setPublish p (!p.is_published) now) p.is_published now2),
    ?_, ?_, ?_, ?_⟩
  · simp only [toggle_post_visibility, hfind, hna, if_false, hupd1]
  · rw [hfind1, Option.map_some', setPublish_is_published]
  · simp only [toggle_post_visibility, hfind1, setPublish_author_id, hna,
      if_false, setPublish_is_published, Bool.not_not, hupd2]
  · rw [hfind2, Option.map_some', setPublish_is_published]

/-- Witness: toggling the concrete published post with id 1 twice, as its
author, restores its published flag. -/
theorem toggle_visibility_involution_witness :
    ∃ posts1 posts2,
      toggle_post_visibility [cPub, cDraft] cAuthorAlice 1 50 =
        (.ok (!cPub.is_published), posts1) ∧
      (get_post_by_id posts1 1).map (fun q => q.is_published) =
        some (!cPub.is_published) ∧
      toggle_post_visibility posts1 cAuthorAlice 1 60 =
        (.ok cPub.is_published, posts2) ∧
      (get_post_by_id posts2 1).map (fun q => q.is_published) =
        some cPub.is_published :=
  toggle_visibility_involution [cPub, cDraft] cAuthorAlice 1 50 60 cPub
    (by unfold idsUnique; decide) (by unfold slugsUnique; decide)
    (by decide) (by decide)

/-- C4 counterexample: updating post 1 to the slug already held by post 2
does not fail with the deliberate Conflict rejection; the store uniqueness
violation escapes the handler as a raw error.  No slug_exists re-check
with exclude_id runs anywhere in the update path. -/
theorem update_taken_slug_not_conflict :
    router_update_post [cPub, cDraft] cAuthorAlice 1 cSlugUpd 50 =
      (.error (.storeError .uniqueViolation), [cPub, cDraft]) ∧
    (router_update_post [cPub, cDraft] cAuthorAlice 1 cSlugUpd 50).1 ≠
      .error .conflictSlug := by
  constructor
  · rfl
  · intro h
    rw [show (router_update_post [cPub, cDraft] cAuthorAlice 1 cSlugUpd 50).1 =
        Except.error (ApiError.storeError DBError.uniqueViolation) from rfl] at h
    exact absurd h (by simp)

/-- C4 (amended): for an existing post and an authorized actor, an update
whose payload carries a (truthy) new slug succeeds exactly when no other
post holds that slug — enforced by the store UNIQUE constraint, not by an
application-level re-check — and when another post does hold it the
handler fails with the escaping store uniqueness error, not with the
deliberate Conflict rejection. -/
theorem update_slug_uniqueness_store_enforced (posts : List PostInDB)
    (actor : UserInDB) (post_id : Nat) (u : PostUpdate) (now : Nat)
    (p : PostInDB) (s : String)
    (hfind : get_post_by_id posts post_id = some p)
    (hauth : p.author_id = actor.id ∨ actor.is_admin = true)
    (hslug : u.slug = some s) (hs : s ≠ "") :
    ((∃ q, (router_update_post posts actor post_id u now).1 = .ok q) ↔
      ∀ q ∈ posts, q.id = p.id ∨ q.slug ≠ s) ∧
    ((∃ q ∈ posts, q.id ≠ p.id ∧ q.slug = s) →
      router_update_post posts actor post_id u now =
        (.error (.storeError .uniqueViolation), posts)) := by
  have hna : ¬(p.author_id ≠ actor.id ∧ actor.is_admin = false) := by
    rcases hauth with h | h
    · exact fun hc => hc.1 h
    · exact fun hc => by rw [h] at hc; exact absurd hc.2 (by decide)
  have hfields : hasUpdateFields u = true := by
    simp [hasUpdateFields, truthyStr, hslug, hs]
  have hAslug : (applyPostUpdate p u now).slug = s := by
    simp [applyPostUpdate, truthyStr, hslug, hs]
  by_cases hcol : (posts.any fun q =>
      decide (q.id ≠ p.id ∧ q.slug = (applyPostUpdate p u now).slug)) = true
  · have hupd : update_post posts post_id u now = .error .uniqueViolation := by
      rw [update_post, if_pos hfields, hfind]
      simp only [hcol, if_true]
    have hrouter : router_update_post posts actor post_id u now =
        (.error (.storeError .uniqueViolation), posts) := by
      simp only [router_update_post, hfind, hna, if_false, hupd]
    rw [List.any_eq_true] at hcol
    obtain ⟨w, hwmem, hw⟩ := hcol
    rw [hAslug] at hw
    simp only [decide_eq_true_eq] at hw
    constructor
    · rw [hrouter]
      constructor
      · rintro ⟨q, hq⟩
        exact absurd hq (by simp)
      · intro hall
        rcases hall w hwmem with h | h
        · exact absurd h hw.1
        · exact absurd hw.2 h
    · intro _
      exact hrouter
  · have hupd : update_post posts post_id u now =
        .ok (some (applyPostUpdate p u now),
          posts.map (fun q => if q.id = p.id then applyPostUpdate p u now
            else q)) := by
      rw [update_post, if_pos hfields, hfind]
      simp only [Bool.not_eq_true] at hcol
      simp only [hcol, Bool.false_eq_true, if_false]
    have hrouter : (router_update_post posts actor post_id u now).1 =
        .ok (applyPostUpdate p u now) := by
      simp only [router_update_post, hfind, hna, if_false, hupd]
    constructor
    · constructor
      · intro _ q hq
        by_contra hc
        push_neg at hc
        rw [Bool.not_eq_true, List.any_eq_false] at hcol
        have := hcol q hq
        rw [hAslug] at this
        simp only [decide_eq_true_eq, not_and] at this
        exact this hc.1 hc.2
      · intro _
        exact ⟨applyPostUpdate p u now, hrouter⟩
    · rintro ⟨q, hqmem, hq1, hq2⟩
      exfalso
      rw [Bool.not_eq_true, List.any_eq_false] at hcol
      have := hcol q hqmem
      rw [hAslug] at this
      simp only [decide_eq_true_eq, not_and] at this
      exact this hq1 hq2

/-- Witness: at the concrete store, updating post 1 to the fresh slug "z"
succeeds, and the taken-slug branch at slug "d" produces the store
error. -/
theorem update_slug_uniqueness_store_enforced_witness :
    ((∃ q, (router_update_post [cPub, cDraft] cAuthorAlice 1
        { title := none, tagline := none, slug := some "z", content := none
          img_file := none, is_published := none } 50).1 = .ok q) ↔
      ∀ q ∈ [cPub, cDraft], q.id = cPub.id ∨ q.slug ≠ "z") ∧
    ((∃ q ∈ [cPub, cDraft], q.id ≠ cPub.id ∧ q.slug = "z") →
      router_update_post [cPub, cDraft] cAuthorAlice 1
        { title := none, tagline := none, slug := some "z", content := none
          img_file := none, is_published := none } 50 =
        (.error (.storeError .uniqueViolation), [cPub, cDraft])) :=
  update_slug_uniqueness_store_enforced [cPub, cDraft] cAuthorAlice 1
    { title := none, tagline := none, slug := some "z", content := none
      img_file := none, is_published := none } 50 cPub "z"
    (by decide) (Or.inl (by decide)) rfl (by decide)

/-- C1 (code bug): the concrete token verifies and its claims carry a
complete identity snapshot matching the stored record, yet identity
resolution does not synthesize an Identity from the claims — it fails with
the AttributeError raised by reading user_id off the email-only TokenData
model, so no identity is ever returned. -/
theorem snapshot_resolution_raises_attribute_error :
    jwtDecode cSnapshotTok "k1" 1000 = .ok cSnapshotPayload ∧
    cSnapshotPayload.user_id = some cAliceStored.id ∧
    cSnapshotPayload.name = some cAliceStored.name ∧
    cSnapshotPayload.email = some cAliceStored.email ∧
    get_current_user (some cSnapshotTok) [cAliceStored] "k1" 1000 =
      .error .attributeError ∧
    ∀ u, get_current_user (some cSnapshotTok) [cAliceStored] "k1" 1000 ≠
      .ok u := by
  refine ⟨rfl, rfl, rfl, rfl, rfl, ?_⟩
  intro u h
  rw [show get_current_user (some cSnapshotTok) [cAliceStored] "k1" 1000 =
      Except.error AuthError.attributeError from rfl] at h
  exact Except.noConfusion h

/-- C10 (code bug): the fast-path branch body as written would fabricate
the identity metadata — empty password hash and created_at equal to the
resolution-time clock, differing from the stored registration time — but
resolution crashes with AttributeError before that branch can run, so no
consumer (such as the current-user info endpoint) ever observes a
fast-path identity at all. -/
theorem fast_path_identity_fabricates_metadata :
    (∀ uid : Nat, ∀ nm em : String, ∀ ia ad : Bool, ∀ now : Nat,
      (fastPathUser uid nm em ia ad now).password = "" ∧
      (fastPathUser uid nm em ia ad now).created_at = now) ∧
    (fastPathUser 1 "Alice" "alice@x" true false 1000).created_at ≠
      cAliceStored.created_at ∧
    get_current_user (some cSnapshotTok) [cAliceStored] "k1" 1000 =
      .error .attributeError := by
  refine ⟨fun uid nm em ia ad now => ⟨rfl, rfl⟩, ?_, rfl⟩
  decide

end Blog
